import Mathlib

/-!
Verification of the OpenGL "hello triangle" program (src/main.cpp).

The program is shallowly embedded: the graphics driver and windowing
library are modelled as an environment supplying the results of external
calls (error flags, compile status, info logs, handles), and the program
fragments become Lean functions over an explicit state that records the
pending GL error flag and the diagnostic output streams.  Macro forms
(`CheckedGLCall`, `CheckedGLResult`, `CheckExistingErrors`) are embedded
once per build configuration, exactly as their expansions read.
-/

/-! ## OpenGL constants (numeric values from the GL headers) -/

def GL_NO_ERROR : Nat := 0
def GL_INVALID_ENUM : Nat := 0x0500
def GL_INVALID_VALUE : Nat := 0x0501
def GL_INVALID_OPERATION : Nat := 0x0502
def GL_OUT_OF_MEMORY : Nat := 0x0505
def GL_INVALID_FRAMEBUFFER_OPERATION : Nat := 0x0506
def GL_CONTEXT_LOST : Nat := 0x0507
def GL_VERTEX_SHADER : Nat := 0x8B31
def GL_FRAGMENT_SHADER : Nat := 0x8B30
def GL_COMPILE_STATUS : Nat := 0x8B81
def GL_INFO_LOG_LENGTH : Nat := 0x8B84
def GL_ARRAY_BUFFER : Nat := 0x8892
def GL_ELEMENT_ARRAY_BUFFER : Nat := 0x8893

/-! ## GL state: the pending error flag and the two diagnostic streams -/

/-- The observable state threaded through the checked-call layer: the GL
context's pending error flag (`glGetError` reads and clears it) and the
lines written so far to `std::cerr` and `std::cout`. -/
structure GLState where
  pendingError : Nat
  cerr : List String
  cout : List String
deriving DecidableEq

/-- The error-name mapping of `PrintOpenGLErrors` (src/main.cpp:16-39):
the `switch` on the error code, with `UNKNOWN_ERROR` as the default. -/
def errorString (Error : Nat) : String :=
  if Error = GL_INVALID_ENUM then "INVALID_ENUM"
  else if Error = GL_INVALID_VALUE then "INVALID_VALUE"
  else if Error = GL_INVALID_OPERATION then "INVALID_OPERATION"
  else if Error = GL_OUT_OF_MEMORY then "OUT_OF_MEMORY"
  else if Error = GL_INVALID_FRAMEBUFFER_OPERATION then "INVALID_FRAMEBUFFER_OPERATION"
  else if Error = GL_CONTEXT_LOST then "CONTEXT_LOST"
  else "UNKNOWN_ERROR"

/-- `PrintOpenGLErrors` (src/main.cpp:10-42): query `glGetError` (which
reads and clears the pending flag); when the code is not `GL_NO_ERROR`,
write one formatted line to `std::cerr`. -/
def PrintOpenGLErrors (Function File : String) (Line : Int) (s : GLState) : GLState :=
  let Error := s.pendingError
  let s1 : GLState := { s with pendingError := GL_NO_ERROR }
  if Error ≠ GL_NO_ERROR then
    { s1 with cerr := s1.cerr ++
        ["OpenGL Error in " ++ File ++ " at line " ++ toString Line ++
         " calling function " ++ Function ++ ": " ++ errorString Error] }
  else s1

/-! ## The checked-call macro forms

A wrapped graphics call `x` is modelled as `GLState → α × GLState`: it may
set a pending error, emit output, and produce a value.  The `_DEBUG`
expansions (src/main.cpp:45-53) and the release expansions
(src/main.cpp:55-57) are embedded separately. -/

/-- Debug `CheckedGLCall(x)` (src/main.cpp:45-51): pre-check labelled
`>>BEFORE<< x`, execute `x`, post-check labelled with the call text. -/
def CheckedGLCall {α : Type} (xt File : String) (Line : Int)
    (x : GLState → α × GLState) (s : GLState) : GLState :=
  let s1 := PrintOpenGLErrors (">>BEFORE<< " ++ xt) File Line s
  let s2 := (x s1).2
  PrintOpenGLErrors xt File Line s2

/-- Debug `CheckedGLResult(x)` (src/main.cpp:52): the comma operator runs
`PrintOpenGLErrors` first, then evaluates `x`; the whole expression
evaluates to `x`. -/
def CheckedGLResult {α : Type} (xt File : String) (Line : Int)
    (x : GLState → α × GLState) (s : GLState) : α × GLState :=
  let s1 := PrintOpenGLErrors xt File Line s
  x s1

/-- Debug `CheckExistingErrors(x)` (src/main.cpp:53): only the
pre-existing-error check; `x` is stringified but never executed. -/
def CheckExistingErrors {α : Type} (xt File : String) (Line : Int)
    (_x : GLState → α × GLState) (s : GLState) : GLState :=
  PrintOpenGLErrors (">>BEFORE<< " ++ xt) File Line s

/-- Release `CheckedGLCall(x)` (src/main.cpp:55): expands to `(x)`. -/
def CheckedGLCallRelease {α : Type} (x : GLState → α × GLState) (s : GLState) : GLState :=
  (x s).2

/-- Release `CheckedGLResult(x)` (src/main.cpp:56): expands to `(x)`. -/
def CheckedGLResultRelease {α : Type} (x : GLState → α × GLState) (s : GLState) : α × GLState :=
  x s

/-- Release `CheckExistingErrors(x)` (src/main.cpp:57): expands to
nothing at all; `x` is not executed and the state is untouched. -/
def CheckExistingErrorsRelease {α : Type} (_x : GLState → α × GLState) (s : GLState) : GLState :=
  s

/-- Spec-claimed variant of `CheckedGLResult`, written from the spec's
words for comparison with the source expansion: it "performs the
post-call error check only (no pre-check), evaluates to the call's
result" — execute `x` first, then run the single error check. -/
def CheckedGLResultPostCheckSpec {α : Type} (xt File : String) (Line : Int)
    (x : GLState → α × GLState) (s : GLState) : α × GLState :=
  let vs := x s
  (vs.1, PrintOpenGLErrors xt File Line vs.2)

/-- A concrete wrapped call used as a discriminating input: it returns 7
and leaves `GL_INVALID_ENUM` pending. -/
def raisingCall : GLState → Nat × GLState :=
  fun s => (7, { s with pendingError := GL_INVALID_ENUM })

/-- A concrete clean starting state: no pending error, empty streams. -/
def cleanState : GLState := ⟨GL_NO_ERROR, [], []⟩

/-! ## Driver and filesystem environment for the shader pipeline -/

/-- External-call events issued by the program to the graphics driver and
the windowing library, recorded in order as a trace. -/
inductive Ev where
  | glfwInitCall
  | windowHint (target value : Nat)
  | createWindow
  | glfwGetError
  | makeContextCurrent
  | setFramebufferSizeCallback
  | glewInitCall
  | getString
  | genVertexArrays (h : Nat)
  | bindVertexArray (h : Nat)
  | genBuffers (h : Nat)
  | bindBuffer (target h : Nat)
  | bufferData (target : Nat)
  | createShader (shaderType : Nat)
  | shaderSource (h : Nat)
  | compileShaderCall (h : Nat)
  | getShaderiv (h pname : Nat)
  | getShaderInfoLogCall (h bufSize : Nat)
  | createProgram
  | attachShader (p s : Nat)
  | linkProgram (p : Nat)
  | useProgram (p : Nat)
  | getAttribLocation (p : Nat)
  | enableVertexAttribArray
  | vertexAttribPointer
  | clearBuffers
  | drawElements
  | swapBuffers
  | pollEvents
  | deleteProgram (h : Nat)
  | deleteShader (h : Nat)
  | deleteBuffers (h : Nat)
  | deleteVertexArrays (h : Nat)
  | glfwTerminate
deriving DecidableEq

/-- The graphics driver's responses for one shader object, plus the
filesystem: what each path opens to (`none` = cannot be opened). -/
structure DriverEnv where
  fileContents : String → Option String
  newShaderHandle : Nat
  compileStatus : Bool
  infoLog : String

/-- Driver semantics of `glGetShaderiv(shader, GL_INFO_LOG_LENGTH, ...)`:
the log's length including the null terminator, 0 when there is no log. -/
def infoLogLengthOf (log : String) : Nat :=
  if log = "" then 0 else log.length + 1

/-- Driver semantics of `glGetShaderInfoLog(shader, bufSize, ..., buf)`:
the buffer receives at most `bufSize - 1` characters of the log plus a
null terminator. -/
def getShaderInfoLog (log : String) (bufSize : Nat) : String :=
  ⟨log.data.take (bufSize - 1)⟩

/-- Result of running a shader-pipeline fragment: the returned value or
thrown exception message, the `std::cout` lines, and the driver calls. -/
structure CompileRun where
  result : Except String Nat
  cout : List String
  calls : List Ev

/-- `LoadShaderFromFile` (src/main.cpp:77-87): open the path; throw
`"Failed to open shader file: " + path` when it cannot be opened,
otherwise return the whole contents. -/
def LoadShaderFromFile (env : DriverEnv) (path : String) : Except String String :=
  match env.fileContents path with
  | none => .error ("Failed to open shader file: " ++ path)
  | some contents => .ok contents

/-- `PrintShaderInfoLog` (src/main.cpp:60-75): query
`GL_INFO_LOG_LENGTH`; when positive, allocate a buffer of exactly that
length, fetch the log into it, and print it. -/
def PrintShaderInfoLog (env : DriverEnv) (Shader : Nat) : List String × List Ev :=
  let InfoLogLength := infoLogLengthOf env.infoLog
  if InfoLogLength > 0 then
    let InfoLog := getShaderInfoLog env.infoLog InfoLogLength
    (["Shader Info Log:", InfoLog],
     [.getShaderiv Shader GL_INFO_LOG_LENGTH, .getShaderInfoLogCall Shader InfoLogLength])
  else
    ([], [.getShaderiv Shader GL_INFO_LOG_LENGTH])

/-- `CompileShader` (src/main.cpp:89-109): load the source, create a
shader object, submit and compile the source, query the compile status;
on failure fetch the log into a 512-byte buffer, print the log, and throw
`"Shader compilation failed: " + infoLog`; on success return the handle. -/
def CompileShader (env : DriverEnv) (path : String) (shaderType : Nat) : CompileRun :=
  match LoadShaderFromFile env path with
  | .error e => ⟨.error e, [], []⟩
  | .ok _ =>
    let shader := env.newShaderHandle
    let calls0 : List Ev :=
      [.createShader shaderType, .shaderSource shader, .compileShaderCall shader,
       .getShaderiv shader GL_COMPILE_STATUS]
    if env.compileStatus then
      ⟨.ok shader, [], calls0⟩
    else
      let infoLog := getShaderInfoLog env.infoLog 512
      let printed := PrintShaderInfoLog env shader
      ⟨.error ("Shader compilation failed: " ++ infoLog),
       printed.1,
       calls0 ++ [.getShaderInfoLogCall shader 512] ++ printed.2⟩

/-! ## The main program -/

def GLFW_CONTEXT_VERSION_MAJOR : Nat := 0x00022002
def GLFW_CONTEXT_VERSION_MINOR : Nat := 0x00022003
def GLFW_OPENGL_PROFILE : Nat := 0x00022008
def GLFW_OPENGL_CORE_PROFILE : Nat := 0x00032001
def GLFW_OPENGL_FORWARD_COMPAT : Nat := 0x00022006
def GL_TRUE : Nat := 1

/-- The environment `main` runs in: outcomes of the external library
calls it makes, the handles the driver hands out, and how many loop
iterations pass before the window's close flag is observed set. -/
structure AppEnv where
  glfwInitOk : Bool
  windowOk : Bool
  glfwErrorDescription : String
  glewOk : Bool
  glewErrorString : String
  glVersion : String
  driverV : DriverEnv
  driverF : DriverEnv
  programHandle : Nat
  vao : Nat
  vbo : Nat
  ebo : Nat
  frames : Nat

/-- Result of running `main`: `.ok code` is a `return code` statement,
`.error msg` is an exception propagating uncaught out of `main`. -/
structure MainRun where
  outcome : Except String Int
  cerr : List String
  cout : List String
  events : List Ev

/-- Driver calls of one render-loop iteration (src/main.cpp:206-217):
clear, draw, swap, poll — repeated until the close flag is set. -/
def loopTrace : Nat → List Ev
  | 0 => []
  | n + 1 => [.clearBuffers, .drawElements, .swapBuffers, .pollEvents] ++ loopTrace n

/-- `main` (src/main.cpp:116-229), as a function of the environment.
Each branch mirrors the source: GLFW init, window creation (with
`glfwGetError` reporting on failure), GLEW init, buffer/array setup,
the two `CompileShader` calls whose exceptions propagate, program
link/use, attribute setup, render loop, cleanup, `return 0`. -/
def mainRun (env : AppEnv) : MainRun :=
  if env.glfwInitOk = false then
    ⟨.ok (-1), ["Failed to initialize GLFW"], [], [.glfwInitCall]⟩
  else
    let evs0 : List Ev :=
      [.glfwInitCall,
       .windowHint GLFW_CONTEXT_VERSION_MAJOR 3,
       .windowHint GLFW_CONTEXT_VERSION_MINOR 3,
       .windowHint GLFW_OPENGL_PROFILE GLFW_OPENGL_CORE_PROFILE,
       .windowHint GLFW_OPENGL_FORWARD_COMPAT GL_TRUE,
       .createWindow]
    if env.windowOk = false then
      ⟨.ok (-1),
       ["Failed to create GLFW window", "GLFW Error: " ++ env.glfwErrorDescription],
       [],
       evs0 ++ [.glfwGetError, .glfwTerminate]⟩
    else
      let evs1 := evs0 ++ [Ev.makeContextCurrent, .setFramebufferSizeCallback, .glewInitCall]
      if env.glewOk = false then
        ⟨.ok (-1), ["GLEW Error: " ++ env.glewErrorString], [],
         evs1 ++ [.glfwTerminate]⟩
      else
        let cout0 := ["OpenGL Version: " ++ env.glVersion]
        let evs2 := evs1 ++
          [Ev.getString,
           .genVertexArrays env.vao, .bindVertexArray env.vao,
           .genBuffers env.vbo, .bindBuffer GL_ARRAY_BUFFER env.vbo,
           .bufferData GL_ARRAY_BUFFER,
           .genBuffers env.ebo, .bindBuffer GL_ELEMENT_ARRAY_BUFFER env.ebo,
           .bufferData GL_ELEMENT_ARRAY_BUFFER]
        let rv := CompileShader env.driverV "shaders/vertex.glsl" GL_VERTEX_SHADER
        match rv.result with
        | .error e => ⟨.error e, [], cout0 ++ rv.cout, evs2 ++ rv.calls⟩
        | .ok VertexShader =>
          let rf := CompileShader env.driverF "shaders/fragment.glsl" GL_FRAGMENT_SHADER
          match rf.result with
          | .error e =>
            ⟨.error e, [], cout0 ++ rv.cout ++ rf.cout, evs2 ++ rv.calls ++ rf.calls⟩
          | .ok FragmentShader =>
            let ShaderProgram := env.programHandle
            let evs3 := evs2 ++ rv.calls ++ rf.calls ++
              [Ev.createProgram,
               .attachShader ShaderProgram VertexShader,
               .attachShader ShaderProgram FragmentShader,
               .linkProgram ShaderProgram, .useProgram ShaderProgram,
               .getAttribLocation ShaderProgram,
               .enableVertexAttribArray, .vertexAttribPointer]
            ⟨.ok 0, [], cout0 ++ rv.cout ++ rf.cout,
             evs3 ++ loopTrace env.frames ++
             [Ev.deleteProgram ShaderProgram,
              .deleteShader FragmentShader,
              .deleteShader VertexShader,
              .deleteBuffers env.ebo,
              .deleteBuffers env.vbo,
              .deleteVertexArrays env.vao,
              .glfwTerminate]⟩

/-- The handle-release events of the cleanup section. -/
def isRelease : Ev → Bool
  | .deleteProgram _ => true
  | .deleteShader _ => true
  | .deleteBuffers _ => true
  | .deleteVertexArrays _ => true
  | _ => false

/-! ## Concrete environments for witnesses and counterexamples -/

/-- A driver environment where every path opens, compilation succeeds,
and the driver leaves a non-empty info log (a warning). -/
def warnDriver : DriverEnv :=
  ⟨fun _ => some "void main() \x7b \x7d", 7, true, "warning: unused variable at 1:3"⟩

/-- A driver environment where the source loads but compilation fails. -/
def failDriver : DriverEnv :=
  ⟨fun _ => some "void main(", 7, false, "0:1: syntax error"⟩

/-- A driver environment whose filesystem opens no path at all. -/
def noFileDriver : DriverEnv :=
  ⟨fun _ => none, 7, true, ""⟩

/-- A driver environment with a clean compile and an empty info log. -/
def cleanDriver : DriverEnv :=
  ⟨fun _ => some "void main() \x7b \x7d", 7, true, ""⟩

/-- Same as `cleanDriver` but handing out shader handle 8. -/
def cleanDriver8 : DriverEnv :=
  ⟨fun _ => some "void main() \x7b \x7d", 8, true, ""⟩

/-- An environment where every external call succeeds: the normal
termination path of `main`. -/
def happyEnv : AppEnv :=
  ⟨true, true, "", true, "", "3.3", cleanDriver, cleanDriver8, 9, 1, 2, 3, 2⟩

/-- An environment where GLFW initialization fails while the library
holds a specific error description. -/
def glfwInitFailEnv : AppEnv :=
  ⟨false, true, "monitor disconnected", true, "", "3.3", cleanDriver, cleanDriver8, 9, 1, 2, 3, 0⟩

/-- Same as `glfwInitFailEnv` but with a different library error
description, to show the output does not depend on it. -/
def glfwInitFailEnv2 : AppEnv :=
  ⟨false, true, "platform unavailable", true, "", "3.3", cleanDriver, cleanDriver8, 9, 1, 2, 3, 0⟩

/-- An environment where GLFW initializes but window creation fails. -/
def windowFailEnv : AppEnv :=
  ⟨true, false, "monitor disconnected", true, "", "3.3", cleanDriver, cleanDriver8, 9, 1, 2, 3, 0⟩

/-- An environment where GLEW initialization fails. -/
def glewFailEnv : AppEnv :=
  ⟨true, true, "", false, "missing GL version", "3.3", cleanDriver, cleanDriver8, 9, 1, 2, 3, 0⟩

/-! ## C1: the error-reporting utility -/

/-- C1: when the queried error flag is `GL_NO_ERROR`, `PrintOpenGLErrors`
is a no-op (state and streams unchanged); otherwise it appends exactly one
formatted line to `std::cerr` carrying the file, line, call-site label and
mapped error name, where the six known codes map to their exact labels and
every other code falls to `UNKNOWN_ERROR`. -/
theorem PrintOpenGLErrors_spec (f fl : String) (ln : Int) (s : GLState) :
    (s.pendingError = GL_NO_ERROR → PrintOpenGLErrors f fl ln s = s) ∧
    (s.pendingError ≠ GL_NO_ERROR →
      PrintOpenGLErrors f fl ln s =
        { pendingError := GL_NO_ERROR,
          cerr := s.cerr ++
            ["OpenGL Error in " ++ fl ++ " at line " ++ toString ln ++
             " calling function " ++ f ++ ": " ++ errorString s.pendingError],
          cout := s.cout }) ∧
    errorString GL_INVALID_ENUM = "INVALID_ENUM" ∧
    errorString GL_INVALID_VALUE = "INVALID_VALUE" ∧
    errorString GL_INVALID_OPERATION = "INVALID_OPERATION" ∧
    errorString GL_OUT_OF_MEMORY = "OUT_OF_MEMORY" ∧
    errorString GL_INVALID_FRAMEBUFFER_OPERATION = "INVALID_FRAMEBUFFER_OPERATION" ∧
    errorString GL_CONTEXT_LOST = "CONTEXT_LOST" ∧
    (∀ e, e ≠ GL_NO_ERROR →
      e ∉ [GL_INVALID_ENUM, GL_INVALID_VALUE, GL_INVALID_OPERATION,
           GL_OUT_OF_MEMORY, GL_INVALID_FRAMEBUFFER_OPERATION, GL_CONTEXT_LOST] →
      errorString e = "UNKNOWN_ERROR") := by
  refine ⟨?_, ?_, rfl, rfl, rfl, rfl, rfl, rfl, ?_⟩
  · intro h
    cases s with
    | mk p ce co => simp_all [PrintOpenGLErrors]
  · intro h
    simp [PrintOpenGLErrors, h]
  · intro e _ hmem
    simp only [List.mem_cons, List.not_mem_nil, or_false, not_or] at hmem
    obtain ⟨h1, h2, h3, h4, h5, h6⟩ := hmem
    simp [errorString, h1, h2, h3, h4, h5, h6]

/-- C1 witness: a pending `GL_INVALID_ENUM` produces exactly the one
formatted line, and an unmapped code maps to `UNKNOWN_ERROR`. -/
theorem PrintOpenGLErrors_spec_witness :
    PrintOpenGLErrors "glClear(0)" "main.cpp" 209 ⟨GL_INVALID_ENUM, [], []⟩ =
      ⟨GL_NO_ERROR,
       ["OpenGL Error in main.cpp at line 209 calling function glClear(0): INVALID_ENUM"],
       []⟩ ∧
    errorString 1234 = "UNKNOWN_ERROR" := by
  refine ⟨?_, ?_⟩
  · have h :=
      (PrintOpenGLErrors_spec "glClear(0)" "main.cpp" 209 ⟨GL_INVALID_ENUM, [], []⟩).2.1
        (by decide)
    rw [h]; rfl
  · exact (PrintOpenGLErrors_spec "f" "g" 0 cleanState).2.2.2.2.2.2.2.2
      1234 (by decide) (by decide)

/-! ## C2: the value-returning checked-call form -/

/-- C2 counterexample: `CheckedGLResult` runs its single error check
BEFORE evaluating the wrapped call, not after.  With a clean incoming
state and a call that leaves `GL_INVALID_ENUM` pending, the source
expansion prints nothing, while the spec's post-check form prints the
error line; the two disagree at this concrete input. -/
theorem CheckedGLResult_not_post_check :
    (CheckedGLResult "glCreateProgram()" "main.cpp" 194 raisingCall cleanState).2.cerr = [] ∧
    (CheckedGLResultPostCheckSpec "glCreateProgram()" "main.cpp" 194 raisingCall
        cleanState).2.cerr =
      ["OpenGL Error in main.cpp at line 194 calling function glCreateProgram(): INVALID_ENUM"] ∧
    CheckedGLResult "glCreateProgram()" "main.cpp" 194 raisingCall cleanState ≠
      CheckedGLResultPostCheckSpec "glCreateProgram()" "main.cpp" 194 raisingCall cleanState := by
  decide

/-- C2 amended: in debug mode `CheckedGLResult` performs its single error
check BEFORE executing the wrapped call `x` (a pre-check labelled with the
call text; no post-check), and evaluates to the result `x` then produces. -/
theorem CheckedGLResult_pre_check {α : Type} (xt fl : String) (ln : Int)
    (x : GLState → α × GLState) (s : GLState) :
    CheckedGLResult xt fl ln x s = x (PrintOpenGLErrors xt fl ln s) ∧
    (CheckedGLResult xt fl ln x s).1 = (x (PrintOpenGLErrors xt fl ln s)).1 :=
  ⟨rfl, rfl⟩

/-! ## C9: the release expansions -/

/-- C9 counterexample: in release configuration `CheckExistingErrors(x)`
expands to nothing, so it does NOT behave like the bare call `x`: for a
call that sets the error flag, the wrapper leaves the state untouched
while the bare call changes it. -/
theorem CheckExistingErrorsRelease_not_bare :
    CheckExistingErrorsRelease raisingCall cleanState ≠ (raisingCall cleanState).2 := by
  decide

/-- C9 amended: in release configuration `CheckedGLCall(x)` and
`CheckedGLResult(x)` expand to exactly the bare call `x` (same value,
same state effects, no diagnostic output), while `CheckExistingErrors(x)`
expands to nothing: `x` is not executed and the state is returned
unchanged. -/
theorem release_forms_spec {α : Type} (x : GLState → α × GLState) (s : GLState) :
    CheckedGLCallRelease x s = (x s).2 ∧
    CheckedGLResultRelease x s = x s ∧
    CheckExistingErrorsRelease x s = s :=
  ⟨rfl, rfl, rfl⟩

/-! ## C3, C4, C5, C10: the shader pipeline -/

/-- Fetching a log into a buffer of exactly `length + 1` bytes (the
driver-reported `GL_INFO_LOG_LENGTH`) retrieves the whole log. -/
theorem getShaderInfoLog_full (log : String) :
    getShaderInfoLog log (log.length + 1) = log := by
  cases log with
  | mk d => simp [getShaderInfoLog, String.length]

/-- C3 counterexample: on a successful compile with a NON-EMPTY driver
info log, `CompileShader` prints nothing at all — the info log is not
printed on the success path, contrary to the claim. -/
theorem CompileShader_success_silent :
    (CompileShader warnDriver "shaders/vertex.glsl" GL_VERTEX_SHADER).result = .ok 7 ∧
    warnDriver.infoLog ≠ "" ∧
    (CompileShader warnDriver "shaders/vertex.glsl" GL_VERTEX_SHADER).cout = [] :=
  ⟨rfl, by decide, rfl⟩

/-- C3 amended: when the source compiles successfully `CompileShader`
returns the new shader handle without failing and prints nothing (the
info log is NOT printed on the success path); the separate diagnostic
routine `PrintShaderInfoLog` — invoked only on the failure path — does
print the full log via a length query and an exact-size buffer whenever
the log is non-empty, and prints nothing when it is empty. -/
theorem CompileShader_success_spec (env : DriverEnv) (path : String) (ty : Nat)
    (src : String) (hfile : env.fileContents path = some src)
    (hok : env.compileStatus = true) :
    (CompileShader env path ty).result = .ok env.newShaderHandle ∧
    (CompileShader env path ty).cout = [] ∧
    (env.infoLog ≠ "" →
      PrintShaderInfoLog env env.newShaderHandle =
        (["Shader Info Log:", env.infoLog],
         [.getShaderiv env.newShaderHandle GL_INFO_LOG_LENGTH,
          .getShaderInfoLogCall env.newShaderHandle (env.infoLog.length + 1)])) ∧
    (env.infoLog = "" → (PrintShaderInfoLog env env.newShaderHandle).1 = []) := by
  refine ⟨?_, ?_, ?_, ?_⟩
  · simp [CompileShader, LoadShaderFromFile, hfile, hok]
  · simp [CompileShader, LoadShaderFromFile, hfile, hok]
  · intro hlog
    have hlen : infoLogLengthOf env.infoLog = env.infoLog.length + 1 := by
      simp [infoLogLengthOf, hlog]
    simp [PrintShaderInfoLog, hlen, getShaderInfoLog_full]
  · intro hlog
    simp [PrintShaderInfoLog, infoLogLengthOf, hlog]

/-- C3 witness: the amended success behavior at a concrete driver with a
non-empty warning log. -/
theorem CompileShader_success_spec_witness :
    (CompileShader warnDriver "shaders/fragment.glsl" GL_FRAGMENT_SHADER).result = .ok 7 ∧
    (CompileShader warnDriver "shaders/fragment.glsl" GL_FRAGMENT_SHADER).cout = [] ∧
    (PrintShaderInfoLog warnDriver warnDriver.newShaderHandle).1 =
      ["Shader Info Log:", "warning: unused variable at 1:3"] := by
  have h := CompileShader_success_spec warnDriver "shaders/fragment.glsl" GL_FRAGMENT_SHADER
    "void main() \x7b \x7d" rfl rfl
  refine ⟨h.1, h.2.1, ?_⟩
  rw [h.2.2.1 (by decide)]
  rfl

/-- C4: when the compile-status query reports failure, `CompileShader`
throws a message that is exactly `"Shader compilation failed: "` followed
by the log as fetched into the fixed 512-byte buffer — in particular the
message contains that retrieved log text. -/
theorem CompileShader_failure_spec (env : DriverEnv) (path : String) (ty : Nat)
    (src : String) (hfile : env.fileContents path = some src)
    (hfail : env.compileStatus = false) :
    (CompileShader env path ty).result =
      .error ("Shader compilation failed: " ++ getShaderInfoLog env.infoLog 512) ∧
    (∃ msg, (CompileShader env path ty).result = .error msg ∧
      ∃ pre, msg = pre ++ getShaderInfoLog env.infoLog 512) := by
  have h1 : (CompileShader env path ty).result =
      .error ("Shader compilation failed: " ++ getShaderInfoLog env.infoLog 512) := by
    simp [CompileShader, LoadShaderFromFile, hfile, hfail]
  constructor
  · exact h1
  · refine ⟨"Shader compilation failed: " ++ getShaderInfoLog env.infoLog 512, h1, ?_⟩
    exact ⟨"Shader compilation failed: ", rfl⟩

/-- C4 witness: the failure message at a concrete driver carries the
driver's log text. -/
theorem CompileShader_failure_spec_witness :
    (CompileShader failDriver "shaders/vertex.glsl" GL_VERTEX_SHADER).result =
      .error "Shader compilation failed: 0:1: syntax error" := by
  have h := CompileShader_failure_spec failDriver "shaders/vertex.glsl" GL_VERTEX_SHADER
    "void main(" rfl rfl
  rw [h.1]
  rfl

/-- C5: when the path cannot be opened, `CompileShader` fails with a
file-open error naming the path and performs no graphics-driver call at
all — in particular no shader object is created. -/
theorem CompileShader_no_file_spec (env : DriverEnv) (path : String) (ty : Nat)
    (hfile : env.fileContents path = none) :
    (CompileShader env path ty).result = .error ("Failed to open shader file: " ++ path) ∧
    (CompileShader env path ty).calls = [] ∧
    (CompileShader env path ty).cout = [] := by
  refine ⟨?_, ?_, ?_⟩ <;> simp [CompileShader, LoadShaderFromFile, hfile]

/-- C5 witness: a filesystem that opens nothing yields the file-open
error and an empty driver-call trace. -/
theorem CompileShader_no_file_spec_witness :
    (CompileShader noFileDriver "shaders/vertex.glsl" GL_VERTEX_SHADER).result =
      .error "Failed to open shader file: shaders/vertex.glsl" ∧
    (CompileShader noFileDriver "shaders/vertex.glsl" GL_VERTEX_SHADER).calls = [] := by
  have h := CompileShader_no_file_spec noFileDriver "shaders/vertex.glsl" GL_VERTEX_SHADER rfl
  exact ⟨by rw [h.1]; rfl, h.2.1⟩

/-- C10: on the compilation-failure path the freshly created shader
handle is never deleted: `glCreateShader` appears in the trace, no
`glDeleteShader` call appears for any handle, and the error propagates. -/
theorem CompileShader_failure_leaks_shader (env : DriverEnv) (path : String) (ty : Nat)
    (src : String) (hfile : env.fileContents path = some src)
    (hfail : env.compileStatus = false) :
    Ev.createShader ty ∈ (CompileShader env path ty).calls ∧
    (∀ h, Ev.deleteShader h ∉ (CompileShader env path ty).calls) ∧
    (∃ msg, (CompileShader env path ty).result = .error msg) := by
  refine ⟨?_, ?_, ?_⟩
  · simp [CompileShader, LoadShaderFromFile, hfile, hfail]
  · intro h
    by_cases hlog : env.infoLog = "" <;>
      simp [CompileShader, LoadShaderFromFile, hfile, hfail, PrintShaderInfoLog,
        infoLogLengthOf, hlog]
  · exact ⟨"Shader compilation failed: " ++ getShaderInfoLog env.infoLog 512,
      by simp [CompileShader, LoadShaderFromFile, hfile, hfail]⟩

/-- C10 witness: at a concrete failing driver, the shader is created and
never deleted before the error propagates. -/
theorem CompileShader_failure_leaks_shader_witness :
    Ev.createShader GL_VERTEX_SHADER ∈
      (CompileShader failDriver "shaders/vertex.glsl" GL_VERTEX_SHADER).calls ∧
    Ev.deleteShader 7 ∉
      (CompileShader failDriver "shaders/vertex.glsl" GL_VERTEX_SHADER).calls := by
  have h := CompileShader_failure_leaks_shader failDriver "shaders/vertex.glsl"
    GL_VERTEX_SHADER "void main(" rfl rfl
  exact ⟨h.1, h.2.1 7⟩

/-! ## C6, C7, C8: the main program -/

/-- The render loop performs no handle-release call. -/
theorem loopTrace_release_free (n : Nat) : ∀ e ∈ loopTrace n, isRelease e = false := by
  induction n with
  | zero => intro e he; simp [loopTrace] at he
  | succ k ih =>
    intro e he
    simp only [loopTrace, List.cons_append, List.nil_append, List.mem_cons] at he
    rcases he with rfl | rfl | rfl | rfl | he
    · rfl
    · rfl
    · rfl
    · rfl
    · exact ih e he

/-- C6: on the normal-termination path (all initialization succeeds, both
shaders compile, the loop exits on window close) the release calls
performed are exactly — once each and in this order — delete program,
delete fragment shader, delete vertex shader, delete EBO, delete VBO,
delete VAO, and they all happen right before `glfwTerminate`, with no
release call anywhere earlier in the run. -/
theorem main_cleanup_order (env : AppEnv) (srcV srcF : String)
    (h1 : env.glfwInitOk = true) (h2 : env.windowOk = true) (h3 : env.glewOk = true)
    (h4 : env.driverV.fileContents "shaders/vertex.glsl" = some srcV)
    (h5 : env.driverF.fileContents "shaders/fragment.glsl" = some srcF)
    (h6 : env.driverV.compileStatus = true) (h7 : env.driverF.compileStatus = true) :
    (mainRun env).outcome = .ok 0 ∧
    (mainRun env).events.filter isRelease =
      [Ev.deleteProgram env.programHandle,
       Ev.deleteShader env.driverF.newShaderHandle,
       Ev.deleteShader env.driverV.newShaderHandle,
       Ev.deleteBuffers env.ebo,
       Ev.deleteBuffers env.vbo,
       Ev.deleteVertexArrays env.vao] ∧
    (∃ pre,
      (mainRun env).events = pre ++
        [Ev.deleteProgram env.programHandle,
         Ev.deleteShader env.driverF.newShaderHandle,
         Ev.deleteShader env.driverV.newShaderHandle,
         Ev.deleteBuffers env.ebo,
         Ev.deleteBuffers env.vbo,
         Ev.deleteVertexArrays env.vao,
         Ev.glfwTerminate] ∧
      ∀ e ∈ pre, isRelease e = false) := by
  have hv : CompileShader env.driverV "shaders/vertex.glsl" GL_VERTEX_SHADER =
      ⟨.ok env.driverV.newShaderHandle, [],
       [.createShader GL_VERTEX_SHADER, .shaderSource env.driverV.newShaderHandle,
        .compileShaderCall env.driverV.newShaderHandle,
        .getShaderiv env.driverV.newShaderHandle GL_COMPILE_STATUS]⟩ := by
    simp [CompileShader, LoadShaderFromFile, h4, h6]
  have hf : CompileShader env.driverF "shaders/fragment.glsl" GL_FRAGMENT_SHADER =
      ⟨.ok env.driverF.newShaderHandle, [],
       [.createShader GL_FRAGMENT_SHADER, .shaderSource env.driverF.newShaderHandle,
        .compileShaderCall env.driverF.newShaderHandle,
        .getShaderiv env.driverF.newShaderHandle GL_COMPILE_STATUS]⟩ := by
    simp [CompileShader, LoadShaderFromFile, h5, h7]
  have hev : (mainRun env).events =
      ([Ev.glfwInitCall,
        .windowHint GLFW_CONTEXT_VERSION_MAJOR 3,
        .windowHint GLFW_CONTEXT_VERSION_MINOR 3,
        .windowHint GLFW_OPENGL_PROFILE GLFW_OPENGL_CORE_PROFILE,
        .windowHint GLFW_OPENGL_FORWARD_COMPAT GL_TRUE,
        .createWindow, .makeContextCurrent, .setFramebufferSizeCallback, .glewInitCall,
        .getString,
        .genVertexArrays env.vao, .bindVertexArray env.vao,
        .genBuffers env.vbo, .bindBuffer GL_ARRAY_BUFFER env.vbo,
        .bufferData GL_ARRAY_BUFFER,
        .genBuffers env.ebo, .bindBuffer GL_ELEMENT_ARRAY_BUFFER env.ebo,
        .bufferData GL_ELEMENT_ARRAY_BUFFER,
        .createShader GL_VERTEX_SHADER, .shaderSource env.driverV.newShaderHandle,
        .compileShaderCall env.driverV.newShaderHandle,
        .getShaderiv env.driverV.newShaderHandle GL_COMPILE_STATUS,
        .createShader GL_FRAGMENT_SHADER, .shaderSource env.driverF.newShaderHandle,
        .compileShaderCall env.driverF.newShaderHandle,
        .getShaderiv env.driverF.newShaderHandle GL_COMPILE_STATUS,
        .createProgram,
        .attachShader env.programHandle env.driverV.newShaderHandle,
        .attachShader env.programHandle env.driverF.newShaderHandle,
        .linkProgram env.programHandle, .useProgram env.programHandle,
        .getAttribLocation env.programHandle,
        .enableVertexAttribArray, .vertexAttribPointer] ++ loopTrace env.frames) ++
      [Ev.deleteProgram env.programHandle,
       Ev.deleteShader env.driverF.newShaderHandle,
       Ev.deleteShader env.driverV.newShaderHandle,
       Ev.deleteBuffers env.ebo,
       Ev.deleteBuffers env.vbo,
       Ev.deleteVertexArrays env.vao,
       Ev.glfwTerminate] := by
    simp [mainRun, h1, h2, h3, hv, hf]
  refine ⟨?_, ?_, ?_⟩
  · simp [mainRun, h1, h2, h3, hv, hf]
  · have hloop : (loopTrace env.frames).filter isRelease = [] :=
      List.filter_eq_nil_iff.mpr
        (by intro e he; simp [loopTrace_release_free env.frames e he])
    rw [hev, List.filter_append, List.filter_append, hloop]
    simp [isRelease]
  · refine ⟨_, hev, ?_⟩
    intro e he
    rcases List.mem_append.1 he with hl | hl
    · fin_cases hl <;> rfl
    · exact loopTrace_release_free env.frames e hl

/-- C6 witness: the cleanup order at a concrete all-success environment
with handles VAO=1, VBO=2, EBO=3, shaders 7 and 8, program 9. -/
theorem main_cleanup_order_witness :
    (mainRun happyEnv).outcome = .ok 0 ∧
    (mainRun happyEnv).events.filter isRelease =
      [Ev.deleteProgram 9, Ev.deleteShader 8, Ev.deleteShader 7,
       Ev.deleteBuffers 3, Ev.deleteBuffers 2, Ev.deleteVertexArrays 1] := by
  have h := main_cleanup_order happyEnv "void main() \x7b \x7d" "void main() \x7b \x7d"
    rfl rfl rfl rfl rfl rfl rfl
  exact ⟨h.1, h.2.1⟩

/-- C7: every `return` statement in `main` yields 0 or -1: -1 exactly on
a fatal initialization failure (GLFW init, window creation, or GLEW
init), 0 exactly on the normal path where initialization and both shader
compilations succeed.  A shader failure propagates as an exception, not
as a return code. -/
theorem main_exit_codes (env : AppEnv) :
    (∀ c : Int, (mainRun env).outcome = .ok c → c = 0 ∨ c = -1) ∧
    ((mainRun env).outcome = .ok (-1) ↔
      (env.glfwInitOk = false ∨ env.windowOk = false ∨ env.glewOk = false)) ∧
    ((mainRun env).outcome = .ok 0 ↔
      (env.glfwInitOk = true ∧ env.windowOk = true ∧ env.glewOk = true ∧
       (∃ v, (CompileShader env.driverV "shaders/vertex.glsl" GL_VERTEX_SHADER).result =
          .ok v) ∧
       (∃ f, (CompileShader env.driverF "shaders/fragment.glsl" GL_FRAGMENT_SHADER).result =
          .ok f))) := by
  by_cases hI : env.glfwInitOk = false
  · refine ⟨?_, ?_, ?_⟩ <;> simp [mainRun, hI]
  · rw [Bool.not_eq_false] at hI
    by_cases hW : env.windowOk = false
    · refine ⟨?_, ?_, ?_⟩ <;> simp [mainRun, hI, hW]
    · rw [Bool.not_eq_false] at hW
      by_cases hG : env.glewOk = false
      · refine ⟨?_, ?_, ?_⟩ <;> simp [mainRun, hI, hW, hG]
      · rw [Bool.not_eq_false] at hG
        rcases hrv : (CompileShader env.driverV "shaders/vertex.glsl" GL_VERTEX_SHADER).result
          with ev | v
        · refine ⟨?_, ?_, ?_⟩ <;> simp [mainRun, hI, hW, hG, hrv]
        · rcases hrf :
            (CompileShader env.driverF "shaders/fragment.glsl" GL_FRAGMENT_SHADER).result
            with ef | f
          · refine ⟨?_, ?_, ?_⟩ <;> simp [mainRun, hI, hW, hG, hrv, hrf]
          · refine ⟨?_, ?_, ?_⟩ <;> simp [mainRun, hI, hW, hG, hrv, hrf]

/-- C7 witness: exit code 0 on the all-success environment and -1 when
GLFW initialization fails. -/
theorem main_exit_codes_witness :
    (mainRun happyEnv).outcome = .ok 0 ∧ (mainRun glfwInitFailEnv).outcome = .ok (-1) := by
  have h0 := (main_exit_codes happyEnv).2.2.mpr ⟨rfl, rfl, rfl, ⟨7, rfl⟩, ⟨8, rfl⟩⟩
  have h1 := (main_exit_codes glfwInitFailEnv).2.1.mpr (Or.inl rfl)
  exact ⟨h0, h1⟩

/-- C8 counterexample: when GLFW initialization fails, the program
prints only its own fixed message "Failed to initialize GLFW": the
library's error description is never queried (`glfwGetError` is absent
from the trace), no "GLFW Error: ..." line appears, and the output is
the same whatever the library's description is — so the claim that every
Uninitialized → WindowReady fatal failure prints the library's own error
description is false on the init-failure branch. -/
theorem main_glfwInit_fail_no_description :
    (mainRun glfwInitFailEnv).outcome = .ok (-1) ∧
    (mainRun glfwInitFailEnv).cerr = ["Failed to initialize GLFW"] ∧
    ("GLFW Error: " ++ glfwInitFailEnv.glfwErrorDescription) ∉ (mainRun glfwInitFailEnv).cerr ∧
    Ev.glfwGetError ∉ (mainRun glfwInitFailEnv).events ∧
    (mainRun glfwInitFailEnv).cerr = (mainRun glfwInitFailEnv2).cerr := by
  refine ⟨rfl, rfl, by decide, by decide, rfl⟩

/-- C8 amended: on window-creation failure the program queries
`glfwGetError` and prints the library's error description before
returning -1; on GLFW-initialization failure it prints only the fixed
message "Failed to initialize GLFW" (the library's description is not
queried) before returning -1. -/
theorem main_init_failure_reporting (env : AppEnv) :
    (env.glfwInitOk = true → env.windowOk = false →
      (mainRun env).outcome = .ok (-1) ∧
      (mainRun env).cerr =
        ["Failed to create GLFW window", "GLFW Error: " ++ env.glfwErrorDescription] ∧
      Ev.glfwGetError ∈ (mainRun env).events) ∧
    (env.glfwInitOk = false →
      (mainRun env).outcome = .ok (-1) ∧
      (mainRun env).cerr = ["Failed to initialize GLFW"] ∧
      Ev.glfwGetError ∉ (mainRun env).events) := by
  constructor
  · intro h1 h2
    refine ⟨?_, ?_, ?_⟩ <;> simp [mainRun, h1, h2]
  · intro h1
    refine ⟨?_, ?_, ?_⟩ <;> simp [mainRun, h1]

/-- C8 amended witness: the two failure modes at concrete environments
with description "monitor disconnected". -/
theorem main_init_failure_reporting_witness :
    (mainRun windowFailEnv).cerr =
      ["Failed to create GLFW window", "GLFW Error: monitor disconnected"] ∧
    (mainRun glfwInitFailEnv2).cerr = ["Failed to initialize GLFW"] := by
  have hw := (main_init_failure_reporting windowFailEnv).1 rfl rfl
  have hi := (main_init_failure_reporting glfwInitFailEnv2).2 rfl
  exact ⟨hw.2.1, hi.2.1⟩
